import Mathlib

/-!
Shallow embedding of the burst-fire tee-time booking engine
(src/Automated_Tee_Time_Booking.py) and proofs about its specified
behaviour: scheduling of (offset, target) jobs, response classification,
the retry engine, the dispatcher's per-job records, the aggregator, and
the configuration / error-propagation paths.

Times are rationals measured in seconds (Python floats in the source);
timing offsets are integers measured in milliseconds; latencies are
rationals measured in milliseconds.
-/

set_option autoImplicit false

namespace TeeTime

/-- One character of Python `str.lower` restricted to ASCII letters, which is
all the marker comparison ever meets. -/
def lowerChar (c : Char) : Char := c.toLower

/-- Python `str.lower` over the characters of a string. -/
def lowerChars (s : List Char) : List Char := s.map lowerChar

/-- `leadsWith pat cs` is true when `cs` starts with `pat`. -/
def leadsWith : List Char → List Char → Bool
  | [], _ => true
  | _ :: _, [] => false
  | p :: ps, c :: cs => p == c && leadsWith ps cs

/-- Python substring containment `pat in cs`. -/
def containsSub (pat : List Char) : List Char → Bool
  | [] => leadsWith pat []
  | c :: cs => leadsWith pat (c :: cs) || containsSub pat cs

/-- The marker substring of line 270: `"booking not open"`. -/
def markerChars : List Char := "booking not open".data

/-- Line 270 and line 337: `"booking not open" in body.lower()`. -/
def hasMarker (body : String) : Bool :=
  containsSub markerChars (lowerChars body.data)

/-- `BurstConfig` dataclass (lines 21-38), defaults included; the
`__post_init__` default offset list is the field default here. -/
structure BurstConfig where
  burst_offsets : List Int := [-70, -40, -10, 10, 40, 70]
  retry_interval_ms : ℚ := 35
  max_retry_attempts : Nat := 50
  max_concurrent_requests : Nat := 10
  booking_window_time : String := "23:00:00"
  cutoff_seconds : ℚ := 30
deriving DecidableEq

/-- `BookingAttempt` dataclass (lines 40-49) with its field defaults. -/
structure BookingAttempt where
  timestamp : ℚ
  offset_ms : Int
  response_time_ms : ℚ
  status_code : Option Nat := none
  success : Bool := false
  error_message : Option String := none
  round_trip_latency_ms : Option ℚ := none
deriving DecidableEq

/-- What the network does for one issued request: an HTTP response with a
status and a body text, an `aiohttp.ClientError` (caught inside
`_make_booking_request`), or any other exception escaping the helper. -/
inductive NetOutcome where
  | response (status : Nat) (body : String)
  | clientError (msg : String)
  | raised (msg : String)
deriving DecidableEq

/-- `_make_booking_request` (lines 285-318): status 200 yields
`(True, 200, None)`, any other status yields `(False, status, body)`, a
caught `aiohttp.ClientError` yields `(False, 0, str(e))`, and any other
exception propagates (`Except.error`). -/
def makeBookingRequest : NetOutcome → Except String (Bool × Nat × Option String)
  | .response status body =>
    if status == 200 then .ok (true, status, none)
    else .ok (false, status, some body)
  | .clientError msg => .ok (false, 0, some msg)
  | .raised msg => .error msg

/-- The classification the spec names: derived from the 200-check at line 312
and the retry condition at line 270. -/
inductive Classification where
  | success
  | retryableRejection
  | terminalFailure
deriving DecidableEq

/-- Classification of an HTTP response as the code decides it: status 200 is
success (line 312); status 400 whose body contains the marker case-insensitively
is the retryable rejection (line 270); everything else is terminal. -/
def classifyResponse (status : Nat) (body : String) : Classification :=
  if status == 200 then .success
  else if status == 400 && hasMarker body then .retryableRejection
  else .terminalFailure

/-- The exhaustion message of line 340:
`f"Max retries ({retry_count}) reached or cutoff time exceeded"`. -/
def exhaustMsg (n : Nat) : String :=
  "Max retries (" ++ toString n ++ ") reached or cutoff time exceeded"

/-- The loop of `_smart_retry` (lines 320-340). `respond k` is the network's
answer to the k-th reissued request, `clock k` the wall clock observed at the
loop condition when `retry_count = k`. The first component of the result is
the returned triple, the second instruments the final `retry_count` so bounds
can be stated; the Python function returns only the triple. Fuel is
`max_retry_attempts - retry_count`, so the loop condition
`retry_count < max_retry_attempts` is the fuel-zero case. -/
def smartRetryGo (respond : Nat → NetOutcome) (clock : Nat → ℚ) (cutoffTime : ℚ) :
    Nat → Nat → Except String ((Bool × Nat × Option String) × Nat)
  | count, 0 => .ok ((false, 400, some (exhaustMsg count)), count)
  | count, fuel + 1 =>
    if clock count < cutoffTime then
      match makeBookingRequest (respond count) with
      | .error e => .error e
      | .ok (succ, status, errMsg) =>
        if succ || status != 400 then .ok ((succ, status, errMsg), count + 1)
        else if !hasMarker (errMsg.getD "") then .ok ((succ, status, errMsg), count + 1)
        else smartRetryGo respond clock cutoffTime (count + 1) fuel
    else .ok ((false, 400, some (exhaustMsg count)), count)

/-- `_smart_retry` entry: `cutoff_time = initial_start + cutoff_seconds`
(line 324), `retry_count = 0`. -/
def smartRetry (cfg : BurstConfig) (respond : Nat → NetOutcome) (clock : Nat → ℚ)
    (initialStart : ℚ) : Except String ((Bool × Nat × Option String) × Nat) :=
  smartRetryGo respond clock (initialStart + cfg.cutoff_seconds) 0 cfg.max_retry_attempts

/-- The environment one dispatched unit runs in: the wall clock at line 249,
the measured latency of the first request (line 261, in ms), the network's
answer to the first request, and the answers and clock readings of the retry
loop should it engage. -/
structure JobEnv where
  attemptStart : ℚ
  responseTime : ℚ
  firstOutcome : NetOutcome
  retryOutcomes : Nat → NetOutcome
  retryClock : Nat → ℚ

/-- The `BookingAttempt(...)` literal of lines 251-255: field defaults for
everything but timestamp, offset and the zero response time. -/
def initialAttempt (offset : Int) (attemptStart : ℚ) : BookingAttempt :=
  { timestamp := attemptStart, offset_ms := offset, response_time_ms := 0 }

/-- The retry condition of line 270:
`status_code == 400 and "booking not open" in (error_msg or "").lower()`,
false when the first request raised (the `except` path skips it). -/
def retryEngaged (env : JobEnv) : Bool :=
  match makeBookingRequest env.firstOutcome with
  | .error _ => false
  | .ok (_, status, errMsg) => status == 400 && hasMarker (errMsg.getD "")

/-- `_schedule_booking_attempt` after its sleep (lines 249-283): build the
record, issue the first request, on success of the helper fill the fields,
engage `_smart_retry` on the line-270 condition, and catch any escaping
exception into `error_message` of the same single record. -/
def runUnit (cfg : BurstConfig) (offset : Int) (env : JobEnv) : BookingAttempt :=
  let attempt0 := initialAttempt offset env.attemptStart
  match makeBookingRequest env.firstOutcome with
  | .error e => { attempt0 with error_message := some e }
  | .ok (succ, status, errMsg) =>
    let a := { attempt0 with
      response_time_ms := env.responseTime,
      status_code := some status,
      success := succ,
      error_message := errMsg,
      round_trip_latency_ms := some env.responseTime }
    if status == 400 && hasMarker (errMsg.getD "") then
      match smartRetry cfg env.retryOutcomes env.retryClock env.attemptStart with
      | .error e => { a with error_message := some e }
      | .ok ((s2, st2, e2), _) =>
        { a with success := s2, status_code := some st2, error_message := e2 }
    else a

/-- One scheduled (offset, target) pair with its absolute fire instant. -/
structure ScheduledJob where
  offset_ms : Int
  teeTime : String
  fire : ℚ
deriving DecidableEq

/-- Line 239: `execution_time = base_time + (offset_ms / 1000.0)`. -/
def executionTime (base : ℚ) (offset : Int) : ℚ := base + (offset : ℚ) / 1000

/-- The double loop of lines 195-200: offsets outer, targets inner, one job
per pair, in order, duplicates kept. -/
def scheduleJobs (offsets : List Int) (targets : List String) (base : ℚ) :
    List ScheduledJob :=
  offsets.flatMap fun o => targets.map fun t => ⟨o, t, executionTime base o⟩

/-- `asyncio.gather` over the scheduled tasks (line 206): the i-th task is the
i-th job's unit run in its own environment; gather preserves task order. -/
def runUnitsFrom (cfg : BurstConfig) (envs : Nat → JobEnv) :
    Nat → List ScheduledJob → List BookingAttempt
  | _, [] => []
  | i, job :: rest =>
    runUnit cfg job.offset_ms (envs i) :: runUnitsFrom cfg envs (i + 1) rest

/-- A decimal digit, else `none`. -/
def digitVal (c : Char) : Option Nat :=
  if c.isDigit then some (c.toNat - 48) else none

/-- Accumulating decimal parse. -/
def parseDigitsGo : Nat → List Char → Option Nat
  | acc, [] => some acc
  | acc, c :: cs =>
    match digitVal c with
    | some d => parseDigitsGo (acc * 10 + d) cs
    | none => none

/-- Python `int()` on a time-of-day component: a nonempty all-digit string
parses, anything else raises `ValueError` (`none` here). -/
def pyInt (cs : List Char) : Option Nat :=
  match cs with
  | [] => none
  | _ => parseDigitsGo 0 cs

/-- Python `str.split(':')`. -/
def splitColon : List Char → List (List Char)
  | [] => [[]]
  | c :: cs =>
    let rest := splitColon cs
    if c == ':' then [] :: rest
    else
      match rest with
      | [] => [[c]]
      | r :: rs => (c :: r) :: rs

/-- `_calculate_booking_time` (lines 221-233): split the configured string on
`':'`, `int()` the first three components, substitute them into today's date.
`none` models the uncaught exceptions of that code: `IndexError` when fewer
than three components exist, `ValueError` from `int()` on a non-numeric
component or from `datetime.replace` on an out-of-range component.
`dayStart` is today's midnight timestamp in seconds. -/
def calculateBookingTime (dayStart : ℚ) (windowTime : String) : Option ℚ :=
  match splitColon windowTime.data with
  | p0 :: p1 :: p2 :: _ =>
    match pyInt p0, pyInt p1, pyInt p2 with
    | some h, some m, some s =>
      if h ≤ 23 && m ≤ 59 && s ≤ 59 then
        some (dayStart + ((h : ℚ) * 3600 + (m : ℚ) * 60 + (s : ℚ)))
      else none
    | _, _, _ => none
  | _ => none

/-- `execute_burst_strategy` (lines 186-219): compute the booking time — an
exception there propagates, nothing catches it — then schedule the
cross-product of jobs and gather their units. -/
def executeBurstStrategy (cfg : BurstConfig) (targets : List String)
    (dayStart : ℚ) (envs : Nat → JobEnv) : Except String (List BookingAttempt) :=
  match calculateBookingTime dayStart cfg.booking_window_time with
  | none => .error ("ValueError: invalid booking_window_time " ++ cfg.booking_window_time)
  | some base =>
    .ok (runUnitsFrom cfg envs 0 (scheduleJobs cfg.burst_offsets targets base))

/-- The recognized keys of `config_data['burst_config']` as
`run_burst_booking` reads them (lines 358-365); absent keys are `none`.
That code never reads `max_concurrent_requests` from the file. -/
structure RawBurstConfig where
  burst_offsets : Option (List Int) := none
  retry_interval_ms : Option ℚ := none
  max_retry_attempts : Option Nat := none
  booking_window_time : Option String := none
  cutoff_seconds : Option ℚ := none

/-- The three ways the configuration file can arrive (lines 352-392):
missing (`FileNotFoundError`), unparseable (`json.JSONDecodeError`), or
parsed with each recognized key present or absent. -/
inductive ConfigSource where
  | missingFile
  | invalidJson
  | parsed (burst : RawBurstConfig) (credentials : Option (String × String))
      (target_times : Option (List String)) (days_in_advance : Option Int)

def defaultCredentials : String × String := ("USERNAME", "PASSWORD")

def defaultTargets : List String := ["7:33", "7:42"]

/-- Configuration loading of `run_burst_booking` (lines 352-392): every
absent key takes its documented default via `.get`, and the two read
failures fall back to the all-defaults configuration. -/
def loadConfig : ConfigSource → BurstConfig × (String × String) × List String × Int
  | .missingFile => ({}, defaultCredentials, defaultTargets, 2)
  | .invalidJson => ({}, defaultCredentials, defaultTargets, 2)
  | .parsed burst creds targets days =>
    ({ burst_offsets := burst.burst_offsets.getD [-70, -40, -10, 10, 40, 70],
       retry_interval_ms := burst.retry_interval_ms.getD 35,
       max_retry_attempts := burst.max_retry_attempts.getD 50,
       max_concurrent_requests := 10,
       booking_window_time := burst.booking_window_time.getD "23:00:00",
       cutoff_seconds := burst.cutoff_seconds.getD 30 },
     creds.getD defaultCredentials, targets.getD defaultTargets, days.getD 2)

/-- `run_burst_booking` (lines 349-422): load the configuration (recovering
from read failures), initialize the session — its failure is re-raised — and
execute the burst; an exception from the burst is also re-raised by the
`except Exception: raise` at line 418. -/
def runBurstBooking (src : ConfigSource) (sessionInit : Except String Unit)
    (dayStart : ℚ) (envs : Nat → JobEnv) : Except String (List BookingAttempt) :=
  match sessionInit with
  | .error e => .error e
  | .ok _ => executeBurstStrategy (loadConfig src).1 (loadConfig src).2.2.1 dayStart envs

/-- Python `min(l, key=key)` starting from a first element: replaces the
best only on a strictly smaller key, so the first minimum wins ties. -/
def pyMinByGo (key : BookingAttempt → ℚ) (best : BookingAttempt) :
    List BookingAttempt → BookingAttempt
  | [] => best
  | a :: rest =>
    if key a < key best then pyMinByGo key a rest else pyMinByGo key best rest

/-- Python `min(l, key=key)`; `none` on the empty list. -/
def pyMinBy (key : BookingAttempt → ℚ) : List BookingAttempt → Option BookingAttempt
  | [] => none
  | a :: rest => some (pyMinByGo key a rest)

/-- What `log_burst_summary` (lines 87-102) computes and reports. -/
structure BurstSummary where
  successCount : Nat
  failCount : Nat
  fastestSuccess : Option BookingAttempt
  avgResponse : Option ℚ
deriving DecidableEq

/-- `log_burst_summary` (lines 87-102): split on the success flag, take the
minimum of the successes by response time, and average the response times of
the attempts whose `response_time_ms` is truthy — Python's `if
a.response_time_ms` drops the value `0.0`. -/
def logBurstSummary (attempts : List BookingAttempt) : BurstSummary :=
  let successful := attempts.filter fun a => a.success
  let failed := attempts.filter fun a => !a.success
  let fastest := pyMinBy (fun a => a.response_time_ms) successful
  let responseTimes := (attempts.filter fun a => a.response_time_ms != 0).map
    fun a => a.response_time_ms
  let avg := if responseTimes.isEmpty then none
    else some (responseTimes.sum / (responseTimes.length : ℚ))
  ⟨successful.length, failed.length, fastest, avg⟩

/-- Modelled from the spec: "the mean response latency across all records
(successes and failures alike)" — the mean over the whole collection, for
comparison with `logBurstSummary`. -/
def specMeanAll (attempts : List BookingAttempt) : Option ℚ :=
  if attempts.isEmpty then none
  else some ((attempts.map fun a => a.response_time_ms).sum / (attempts.length : ℚ))

/-- Modelled from the spec: "the successful record with minimum response
latency (ties broken by earliest actual fire timestamp)" — minimum under the
lexicographic (latency, timestamp) order. -/
def specFastestGo (best : BookingAttempt) : List BookingAttempt → BookingAttempt
  | [] => best
  | a :: rest =>
    if a.response_time_ms < best.response_time_ms ∨
        (a.response_time_ms = best.response_time_ms ∧ a.timestamp < best.timestamp) then
      specFastestGo a rest
    else specFastestGo best rest

/-- Modelled from the spec: the fastest successful record with the spec's
tie-break; `none` when no record succeeded. -/
def specFastest (attempts : List BookingAttempt) : Option BookingAttempt :=
  match attempts.filter fun a => a.success with
  | [] => none
  | a :: rest => some (specFastestGo a rest)

/-- Whether one unit is inside its network phase at instant `t`: the unit
fires at `job.fire` (its awaited sleep ends there) and its request occupies
the wire until its response arrives `latencyMs` later. `execute_burst_strategy`
starts every unit through one `asyncio.gather` with no admission-control
primitive, and `aiohttp` network waits overlap freely, so the network phases
of the units are exactly these intervals. -/
def networkBusyAt (job : ScheduledJob) (latencyMs : ℚ) (t : ℚ) : Bool :=
  decide (job.fire ≤ t) && decide (t < job.fire + latencyMs / 1000)

/-- How many units are inside their network phase at instant `t`. -/
def activeNetworkCount (units : List (ScheduledJob × ℚ)) (t : ℚ) : Nat :=
  (units.filter fun u => networkBusyAt u.1 u.2 t).length

/-- The retryable-rejection test on one network outcome, as the code's own
conditions compose: the helper triple is a non-success with status 400 whose
error text contains the marker. -/
def retryableOutcome (o : NetOutcome) : Bool :=
  match makeBookingRequest o with
  | .error _ => false
  | .ok (succ, status, errMsg) => !succ && status == 400 && hasMarker (errMsg.getD "")

/-- An environment whose first request raises: the unit of C9's and C5's
concrete scenarios. -/
def envRaising (msg : String) : JobEnv :=
  { attemptStart := 0, responseTime := 0, firstOutcome := .raised msg,
    retryOutcomes := fun _ => .raised msg, retryClock := fun _ => 0 }

/-- An environment whose every request is answered 409 "no availability". -/
def envTerminal : JobEnv :=
  { attemptStart := 0, responseTime := 12, firstOutcome := .response 409 "no availability",
    retryOutcomes := fun _ => .response 409 "no availability", retryClock := fun _ => 0 }

/-- The record the unit produces when its first request raises "boom": the
exception path of lines 279-281, reaching the aggregator with a 0.0 latency. -/
def crashedAttempt : BookingAttempt := runUnit {} 0 (envRaising "boom")

/-- A successful record with latency 100 ms. -/
def fastAttempt : BookingAttempt :=
  { timestamp := 1, offset_ms := 10, response_time_ms := 100, status_code := some 200,
    success := true, error_message := none, round_trip_latency_ms := some 100 }

/-- A successful record with latency 5 ms firing late (timestamp 10). -/
def lateFireSuccess : BookingAttempt :=
  { timestamp := 10, offset_ms := 40, response_time_ms := 5, status_code := some 200,
    success := true, error_message := none, round_trip_latency_ms := some 5 }

/-- A successful record with the same 5 ms latency firing early (timestamp 3). -/
def earlyFireSuccess : BookingAttempt :=
  { timestamp := 3, offset_ms := -10, response_time_ms := 5, status_code := some 200,
    success := true, error_message := none, round_trip_latency_ms := some 5 }

/-! ## Scheduling lemmas -/

theorem scheduleJobs_cons (o : Int) (os : List Int) (t : List String) (b : ℚ) :
    scheduleJobs (o :: os) t b =
      (t.map fun s => ⟨o, s, executionTime b o⟩) ++ scheduleJobs os t b := rfl

theorem length_scheduleJobs (os : List Int) (t : List String) (b : ℚ) :
    (scheduleJobs os t b).length = os.length * t.length := by
  induction os with
  | nil => simp [scheduleJobs]
  | cons o os ih =>
    rw [scheduleJobs_cons, List.length_append, List.length_map, ih, List.length_cons,
      Nat.succ_mul]
    omega

theorem scheduleJobs_getElem (os : List Int) (t : List String) (b : ℚ) :
    ∀ (i j : Nat) (hi : i < os.length) (hj : j < t.length),
      (scheduleJobs os t b)[i * t.length + j]? =
        some ⟨os[i], t[j], executionTime b os[i]⟩ := by
  induction os with
  | nil => intro i j hi _; exact absurd hi (Nat.not_lt_zero i)
  | cons o os ih =>
    intro i j hi hj
    cases i with
    | zero =>
      rw [scheduleJobs_cons, Nat.zero_mul, Nat.zero_add,
        List.getElem?_append_left (by simpa using hj), List.getElem?_map,
        List.getElem?_eq_getElem hj]
      rfl
    | succ i =>
      have hsm : (i + 1) * t.length + j = t.length + (i * t.length + j) := by
        rw [Nat.succ_mul]; omega
      rw [scheduleJobs_cons, hsm,
        List.getElem?_append_right (by simp), List.length_map,
        Nat.add_sub_cancel_left]
      simpa using ih i j (Nat.lt_of_succ_lt_succ hi) hj

theorem fire_of_mem_scheduleJobs (os : List Int) (t : List String) (b : ℚ)
    (job : ScheduledJob) (h : job ∈ scheduleJobs os t b) :
    job.fire = b + (job.offset_ms : ℚ) / 1000 := by
  rw [scheduleJobs, List.mem_flatMap] at h
  obtain ⟨o, -, hmem⟩ := h
  rw [List.mem_map] at hmem
  obtain ⟨s, -, rfl⟩ := hmem
  rfl

/-- C1: the Scheduler emits one ScheduledJob per (offset, target) pair of the
cross-product, duplicates included — the job list has length
`|offsets| * |targets|` and its entry at row i, column j pairs the i-th offset
with the j-th target — and every job's fire instant is the window-open instant
plus its offset in milliseconds, independent of the target. -/
theorem scheduler_cross_product (offsets : List Int) (targets : List String) (base : ℚ)
    (i j : Nat) (hi : i < offsets.length) (hj : j < targets.length) :
    (scheduleJobs offsets targets base).length = offsets.length * targets.length ∧
    (scheduleJobs offsets targets base)[i * targets.length + j]? =
      some ⟨offsets[i], targets[j], executionTime base offsets[i]⟩ ∧
    ∀ job ∈ scheduleJobs offsets targets base,
      job.fire = base + (job.offset_ms : ℚ) / 1000 :=
  ⟨length_scheduleJobs offsets targets base,
   scheduleJobs_getElem offsets targets base i j hi hj,
   fun job h => fire_of_mem_scheduleJobs offsets targets base job h⟩

/-- Witness for C1 at offsets `[-70, 40]`, targets `["7:33", "7:42"]`, window
instant 0, entry (1, 0). -/
theorem scheduler_cross_product_witness :
    (1 < ([-70, 40] : List Int).length ∧ 0 < (["7:33", "7:42"] : List String).length) ∧
    ((scheduleJobs [-70, 40] ["7:33", "7:42"] 0).length = 2 * 2 ∧
     (scheduleJobs [-70, 40] ["7:33", "7:42"] 0)[1 * 2 + 0]? =
       some ⟨40, "7:33", executionTime 0 40⟩ ∧
     ∀ job ∈ scheduleJobs [-70, 40] ["7:33", "7:42"] 0,
       job.fire = 0 + (job.offset_ms : ℚ) / 1000) :=
  ⟨⟨by decide, by decide⟩,
   scheduler_cross_product [-70, 40] ["7:33", "7:42"] 0 1 0 (by decide) (by decide)⟩

/-! ## Dispatcher lemmas -/

theorem runUnitsFrom_length (cfg : BurstConfig) (envs : Nat → JobEnv) :
    ∀ (k : Nat) (jobs : List ScheduledJob),
      (runUnitsFrom cfg envs k jobs).length = jobs.length := by
  intro k jobs
  induction jobs generalizing k with
  | nil => rfl
  | cons a l ih => simp [runUnitsFrom, ih]

theorem runUnitsFrom_getElem (cfg : BurstConfig) (envs : Nat → JobEnv) :
    ∀ (k j : Nat) (jobs : List ScheduledJob),
      (runUnitsFrom cfg envs k jobs)[j]? =
        (jobs[j]?).map fun job => runUnit cfg job.offset_ms (envs (k + j)) := by
  intro k j jobs
  induction jobs generalizing k j with
  | nil => simp [runUnitsFrom]
  | cons a l ih =>
    cases j with
    | zero => simp [runUnitsFrom]
    | succ j =>
      rw [runUnitsFrom, List.getElem?_cons_succ, List.getElem?_cons_succ, ih (k + 1) j]
      have : k + 1 + j = k + (j + 1) := by omega
      rw [this]

/-- C2: the dispatcher produces exactly one finalized AttemptRecord per
ScheduledJob: the gathered record list has one entry per job, and its i-th
entry is the single record the i-th job's unit returns — whatever its retry
engine did internally (`envs` ranges over every possible network and clock
behaviour, so over every retry history), only that one final record exists. -/
theorem one_record_per_job (cfg : BurstConfig) (targets : List String) (base : ℚ)
    (envs : Nat → JobEnv) :
    (runUnitsFrom cfg envs 0 (scheduleJobs cfg.burst_offsets targets base)).length =
      (scheduleJobs cfg.burst_offsets targets base).length ∧
    ∀ i : Nat,
      (runUnitsFrom cfg envs 0 (scheduleJobs cfg.burst_offsets targets base))[i]? =
        ((scheduleJobs cfg.burst_offsets targets base)[i]?).map
          fun job => runUnit cfg job.offset_ms (envs i) := by
  refine ⟨runUnitsFrom_length cfg envs 0 _, fun i => ?_⟩
  simpa using runUnitsFrom_getElem cfg envs 0 i _

/-! ## Classification -/

/-- C3: a status-200 response classifies as success and the retry path is
never entered; a status-400 response whose body contains the marker substring
case-insensitively classifies as the retryable rejection and line 270's
condition engages the retry engine; any other non-success response classifies
as a terminal failure with no retry. When the retry engine does not engage,
the unit's record is independent of the retry oracle and clock — the retry
path is never executed. -/
theorem response_classification (env : JobEnv) (status : Nat) (body : String)
    (hfo : env.firstOutcome = .response status body) :
    (status = 200 → classifyResponse status body = .success ∧ retryEngaged env = false) ∧
    (status = 400 → hasMarker body = true →
      classifyResponse status body = .retryableRejection ∧ retryEngaged env = true) ∧
    (status ≠ 200 → (status = 400 → hasMarker body = false) →
      classifyResponse status body = .terminalFailure ∧ retryEngaged env = false) ∧
    (∀ (cfg : BurstConfig) (off : Int) (r : Nat → NetOutcome) (c : Nat → ℚ),
      retryEngaged env = false →
        runUnit cfg off { env with retryOutcomes := r, retryClock := c } =
          runUnit cfg off env) := by
  refine ⟨?_, ?_, ?_, ?_⟩
  · intro h200
    subst h200
    exact ⟨by simp [classifyResponse], by simp [retryEngaged, hfo, makeBookingRequest]⟩
  · intro h400 hm
    subst h400
    exact ⟨by simp [classifyResponse, hm],
      by simp [retryEngaged, hfo, makeBookingRequest, hm]⟩
  · intro h200 h400
    by_cases h4 : status = 400
    · exact ⟨by simp [classifyResponse, h200, h400 h4],
        by simp [retryEngaged, hfo, makeBookingRequest, h200, h400 h4]⟩
    · exact ⟨by simp [classifyResponse, h200, h4],
        by simp [retryEngaged, hfo, makeBookingRequest, h200, h4]⟩
  · intro cfg off r c hfalse
    unfold retryEngaged at hfalse
    cases hmk : makeBookingRequest env.firstOutcome with
    | error e => simp [runUnit, hmk]
    | ok triple =>
      obtain ⟨succ, st, errMsg⟩ := triple
      rw [hmk] at hfalse
      have hcond : (st == 400 && hasMarker (errMsg.getD "")) = false := by
        simpa using hfalse
      simp [runUnit, hmk, hcond]

/-- Witness for C3: a 409 "no availability" response is terminal and does not
engage the retry engine. -/
theorem response_classification_witness :
    envTerminal.firstOutcome = .response 409 "no availability" ∧
    (classifyResponse 409 "no availability" = .terminalFailure ∧
     retryEngaged envTerminal = false) :=
  ⟨rfl, (response_classification envTerminal 409 "no availability" rfl).2.2.1
    (by decide) (by decide)⟩

/-- C10: a first request whose exception escapes the request helper still
yields one finalized record with success `false`, status code `none`, response
latency exactly 0, and the exception text as error detail (the defaults of
lines 251-255 survive because the mutations of lines 261-267 never ran); a
transport error the helper catches instead yields status code 0 with the
error text, success still `false`. -/
theorem exception_paths_record (cfg : BurstConfig) (off : Int) (env : JobEnv) (msg : String) :
    (env.firstOutcome = .raised msg →
      runUnit cfg off env =
        { timestamp := env.attemptStart, offset_ms := off, response_time_ms := 0,
          status_code := none, success := false, error_message := some msg,
          round_trip_latency_ms := none }) ∧
    (env.firstOutcome = .clientError msg →
      (runUnit cfg off env).status_code = some 0 ∧
      (runUnit cfg off env).success = false ∧
      (runUnit cfg off env).error_message = some msg ∧
      (runUnit cfg off env).response_time_ms = env.responseTime) := by
  constructor
  · intro h
    simp [runUnit, h, makeBookingRequest, initialAttempt]
  · intro h
    simp [runUnit, h, makeBookingRequest, initialAttempt]

/-! ## Retry engine -/

theorem retryableOutcome_inv (o : NetOutcome) (h : retryableOutcome o = true) :
    ∃ body, makeBookingRequest o = .ok (false, 400, some body) ∧ hasMarker body = true := by
  cases o with
  | response status bd =>
    by_cases h200 : status == 200
    · simp [retryableOutcome, makeBookingRequest, h200] at h
    · simp only [retryableOutcome, makeBookingRequest, h200, Bool.false_eq_true,
        if_false, Bool.not_false, Bool.true_and, Bool.and_eq_true, beq_iff_eq] at h
      obtain ⟨h400, hm⟩ := h
      subst h400
      exact ⟨bd, by simp [makeBookingRequest], by simpa using hm⟩
  | clientError msg => simp [retryableOutcome, makeBookingRequest] at h
  | raised msg => simp [retryableOutcome, makeBookingRequest] at h

theorem smartRetryGo_exhausts (respond : Nat → NetOutcome) (clock : Nat → ℚ)
    (cutoffTime : ℚ) (hall : ∀ k, retryableOutcome (respond k) = true) :
    ∀ (fuel count : Nat),
      ∃ n, smartRetryGo respond clock cutoffTime count fuel =
          .ok ((false, 400, some (exhaustMsg n)), n) ∧
        n ≤ count + fuel ∧ (n < count + fuel → cutoffTime ≤ clock n) := by
  intro fuel
  induction fuel with
  | zero => intro count; exact ⟨count, rfl, by omega, by omega⟩
  | succ fuel ih =>
    intro count
    by_cases hc : clock count < cutoffTime
    · obtain ⟨body, hmk, hm⟩ := retryableOutcome_inv _ (hall count)
      obtain ⟨n, heq, hle, htime⟩ := ih (count + 1)
      refine ⟨n, ?_, by omega, fun h => htime (by omega)⟩
      rw [smartRetryGo, if_pos hc, hmk]
      simpa [hm] using heq
    · exact ⟨count, by rw [smartRetryGo, if_neg hc], by omega, fun _ => not_lt.mp hc⟩

/-- C4: for a job whose every reissued request classifies as a retryable
rejection, the retry loop stops after n retries with n at most
`max_retry_attempts`, and when it stopped below that maximum the wall clock
at the final loop check had reached `initial_start + cutoff_seconds` — the
count bound or the time bound, whichever is hit first — and the result is the
terminal failure triple `(False, 400, "Max retries (n) reached or cutoff time
exceeded")`, the distinguishable budget-exhausted detail of line 340. -/
theorem retry_budget_termination (cfg : BurstConfig) (respond : Nat → NetOutcome)
    (clock : Nat → ℚ) (start : ℚ)
    (hall : ∀ k, retryableOutcome (respond k) = true) :
    ∃ n, smartRetry cfg respond clock start =
        .ok ((false, 400, some (exhaustMsg n)), n) ∧
      n ≤ cfg.max_retry_attempts ∧
      (n < cfg.max_retry_attempts → start + cfg.cutoff_seconds ≤ clock n) := by
  simpa [smartRetry] using
    smartRetryGo_exhausts respond clock (start + cfg.cutoff_seconds) hall
      cfg.max_retry_attempts 0

/-- Witness for C4: the spec's own scenario — interval 20 ms, at most 3
retries, cutoff 0.05 s — against a server that always answers
400 "Booking not open yet". -/
theorem retry_budget_termination_witness :
    (∀ k : Nat, retryableOutcome
      ((fun _ => NetOutcome.response 400 "Booking not open yet") k) = true) ∧
    ∃ n, smartRetry
        { retry_interval_ms := 20, max_retry_attempts := 3, cutoff_seconds := 1/20 }
        (fun _ => NetOutcome.response 400 "Booking not open yet")
        (fun k => (k : ℚ) / 50) 0 =
        .ok ((false, 400, some (exhaustMsg n)), n) ∧
      n ≤ 3 ∧ (n < 3 → 0 + (1/20 : ℚ) ≤ (n : ℚ) / 50) := by
  have h : retryableOutcome (NetOutcome.response 400 "Booking not open yet") = true := by
    decide
  exact ⟨fun _ => h,
    retry_budget_termination
      { retry_interval_ms := 20, max_retry_attempts := 3, cutoff_seconds := 1/20 }
      (fun _ => NetOutcome.response 400 "Booking not open yet")
      (fun k => (k : ℚ) / 50) 0 (fun _ => h)⟩

/-! ## Aggregator -/

theorem filter_split_length (p : BookingAttempt → Bool) (l : List BookingAttempt) :
    (l.filter p).length + (l.filter fun a => !p a).length = l.length := by
  induction l with
  | nil => rfl
  | cons a l ih =>
    by_cases h : p a <;> simp [List.filter_cons, h, ← ih] <;> omega

/-- C5 counterexample: with a record produced by the exception path (its
response latency stays 0.0, here the unit whose first request raised) next to
a 100 ms success, the summary's average is 100 — the zero-latency record is
dropped by `if a.response_time_ms` — while the mean over all records is 50. -/
theorem mean_latency_counterexample :
    crashedAttempt.response_time_ms = 0 ∧
    (logBurstSummary [crashedAttempt, fastAttempt]).avgResponse = some 100 ∧
    specMeanAll [crashedAttempt, fastAttempt] = some 50 ∧
    (100 : ℚ) ≠ 50 := by
  refine ⟨rfl, ?_, ?_, by norm_num⟩
  · norm_num [logBurstSummary, crashedAttempt, fastAttempt, runUnit, envRaising,
      makeBookingRequest, initialAttempt]
  · norm_num [specMeanAll, crashedAttempt, fastAttempt, runUnit, envRaising,
      makeBookingRequest, initialAttempt]

/-- C5 amended: for every non-empty collection the summary's success and
failure counts partition all records, and the reported mean response latency
is computed over the records whose response latency is nonzero (successes and
failures alike — but Python's truthiness test drops latency 0.0); no mean is
reported exactly when every record's latency is zero. -/
theorem mean_latency_over_nonzero (attempts : List BookingAttempt)
    (_h : attempts ≠ []) :
    (logBurstSummary attempts).successCount + (logBurstSummary attempts).failCount =
      attempts.length ∧
    (logBurstSummary attempts).successCount = attempts.countP (fun a => a.success) ∧
    (logBurstSummary attempts).failCount = attempts.countP (fun a => !a.success) ∧
    ((logBurstSummary attempts).avgResponse = none ↔
      ∀ a ∈ attempts, a.response_time_ms = 0) ∧
    ∀ m, (logBurstSummary attempts).avgResponse = some m →
      m = ((attempts.filter fun a => a.response_time_ms != 0).map
            fun a => a.response_time_ms).sum /
          (((attempts.filter fun a => a.response_time_ms != 0).length : ℚ)) := by
  refine ⟨filter_split_length _ attempts, ?_, ?_, ?_, ?_⟩
  · simp [logBurstSummary, List.countP_eq_length_filter]
  · simp [logBurstSummary, List.countP_eq_length_filter]
  · simp only [logBurstSummary]
    constructor
    · intro hnone
      by_cases he : ((attempts.filter fun a => a.response_time_ms != 0).map
          fun a => a.response_time_ms).isEmpty
      · intro a ha
        rw [List.isEmpty_iff, List.map_eq_nil_iff, List.filter_eq_nil_iff] at he
        have := he a ha
        simpa using this
      · simp [he] at hnone
    · intro hall
      have he : (attempts.filter fun a => a.response_time_ms != 0) = [] := by
        rw [List.filter_eq_nil_iff]
        intro a ha
        simpa using hall a ha
      simp [he]
  · intro m hm
    simp only [logBurstSummary] at hm
    by_cases he : ((attempts.filter fun a => a.response_time_ms != 0).map
        fun a => a.response_time_ms).isEmpty
    · simp [he] at hm
    · simp only [he, if_false, Option.some.injEq, Bool.false_eq_true] at hm
      subst hm
      simp [List.length_map]

/-- Witness for C5 amended at the one-record collection `[fastAttempt]`. -/
theorem mean_latency_over_nonzero_witness :
    ([fastAttempt] ≠ []) ∧
    ((logBurstSummary [fastAttempt]).successCount + (logBurstSummary [fastAttempt]).failCount =
      [fastAttempt].length ∧
    (logBurstSummary [fastAttempt]).successCount = [fastAttempt].countP (fun a => a.success) ∧
    (logBurstSummary [fastAttempt]).failCount = [fastAttempt].countP (fun a => !a.success) ∧
    ((logBurstSummary [fastAttempt]).avgResponse = none ↔
      ∀ a ∈ [fastAttempt], a.response_time_ms = 0) ∧
    ∀ m, (logBurstSummary [fastAttempt]).avgResponse = some m →
      m = (([fastAttempt].filter fun a => a.response_time_ms != 0).map
            fun a => a.response_time_ms).sum /
          ((([fastAttempt].filter fun a => a.response_time_ms != 0).length : ℚ))) :=
  ⟨by simp, mean_latency_over_nonzero [fastAttempt] (by simp)⟩

/-! ## Fastest-success selection -/

theorem pyMinByGo_le (key : BookingAttempt → ℚ) :
    ∀ (l : List BookingAttempt) (best : BookingAttempt),
      key (pyMinByGo key best l) ≤ key best := by
  intro l
  induction l with
  | nil => intro best; simp [pyMinByGo]
  | cons a rest ih =>
    intro best
    by_cases hc : key a < key best
    · rw [pyMinByGo, if_pos hc]
      exact le_trans (ih a) (le_of_lt hc)
    · rw [pyMinByGo, if_neg hc]
      exact ih best

theorem pyMinByGo_decomp (key : BookingAttempt → ℚ) :
    ∀ (l : List BookingAttempt) (best : BookingAttempt),
      ∃ l1 l2, best :: l = l1 ++ pyMinByGo key best l :: l2 ∧
        (∀ a ∈ l1, key (pyMinByGo key best l) < key a) ∧
        (∀ a ∈ l2, key (pyMinByGo key best l) ≤ key a) := by
  intro l
  induction l with
  | nil => intro best; exact ⟨[], [], rfl, by simp, by simp⟩
  | cons a rest ih =>
    intro best
    by_cases hc : key a < key best
    · obtain ⟨l1, l2, hdec, h1, h2⟩ := ih a
      have hres : pyMinByGo key best (a :: rest) = pyMinByGo key a rest := by
        rw [pyMinByGo, if_pos hc]
      refine ⟨best :: l1, l2, ?_, ?_, ?_⟩
      · rw [hres, List.cons_append]
        exact congrArg (best :: ·) hdec
      · intro x hx
        rcases List.mem_cons.mp hx with hbx | hl1
        · subst hbx
          rw [hres]
          exact lt_of_le_of_lt (pyMinByGo_le key rest a) hc
        · rw [hres]
          exact h1 x hl1
      · intro x hx
        rw [hres]
        exact h2 x hx
    · obtain ⟨l1, l2, hdec, h1, h2⟩ := ih best
      have hres : pyMinByGo key best (a :: rest) = pyMinByGo key best rest := by
        rw [pyMinByGo, if_neg hc]
      cases l1 with
      | nil =>
        rw [List.nil_append] at hdec
        have hbm : best = pyMinByGo key best rest := (List.cons.injEq _ _ _ _ ▸ hdec).1
        have hrl : rest = l2 := (List.cons.injEq _ _ _ _ ▸ hdec).2
        refine ⟨[], a :: l2, ?_, by simp, ?_⟩
        · rw [hres, List.nil_append, ← hbm, hrl]
        · intro x hx
          rw [hres]
          rcases List.mem_cons.mp hx with hxa | hxl2
          · subst hxa
            rw [← hbm]
            exact not_lt.mp hc
          · exact h2 x hxl2
      | cons b l1 =>
        rw [List.cons_append] at hdec
        have hbb : best = b := (List.cons.injEq _ _ _ _ ▸ hdec).1
        have hrl : rest = l1 ++ pyMinByGo key best rest :: l2 :=
          (List.cons.injEq _ _ _ _ ▸ hdec).2
        have hmb : key (pyMinByGo key best rest) < key best := by
          have := h1 b (List.mem_cons_self b l1)
          rwa [← hbb] at this
        refine ⟨best :: a :: l1, l2, ?_, ?_, ?_⟩
        · rw [hres, List.cons_append, List.cons_append]
          exact congrArg (best :: ·) (congrArg (a :: ·) hrl)
        · intro x hx
          rw [hres]
          rcases List.mem_cons.mp hx with hxb | hx2
          · subst hxb; exact hmb
          · rcases List.mem_cons.mp hx2 with hxa | hxl1
            · subst hxa
              exact lt_of_lt_of_le hmb (not_lt.mp hc)
            · exact h1 x (List.mem_cons_of_mem b hxl1)
        · intro x hx
          rw [hres]
          exact h2 x hx

theorem pyMinBy_first_minimal (key : BookingAttempt → ℚ) (l : List BookingAttempt)
    (h : l ≠ []) :
    ∃ f l1 l2, pyMinBy key l = some f ∧ l = l1 ++ f :: l2 ∧
      (∀ a ∈ l1, key f < key a) ∧ (∀ a ∈ l2, key f ≤ key a) := by
  cases l with
  | nil => exact absurd rfl h
  | cons a rest =>
    obtain ⟨l1, l2, hdec, h1, h2⟩ := pyMinByGo_decomp key rest a
    exact ⟨pyMinByGo key a rest, l1, l2, rfl, hdec, h1, h2⟩

/-- C6 counterexample: two successes tie at 5 ms latency; the one listed
first fired at timestamp 10, the other at timestamp 3. The summary reports
the first-listed record — Python's `min` keeps the first minimum in iteration
order — while the spec's tie-break (earliest actual fire timestamp) names the
other record. -/
theorem fastest_tiebreak_counterexample :
    (logBurstSummary [lateFireSuccess, earlyFireSuccess]).fastestSuccess =
      some lateFireSuccess ∧
    specFastest [lateFireSuccess, earlyFireSuccess] = some earlyFireSuccess ∧
    lateFireSuccess ≠ earlyFireSuccess ∧
    earlyFireSuccess.timestamp < lateFireSuccess.timestamp ∧
    earlyFireSuccess.response_time_ms = lateFireSuccess.response_time_ms := by
  refine ⟨?_, ?_, ?_, by norm_num [lateFireSuccess, earlyFireSuccess], rfl⟩
  · norm_num [logBurstSummary, lateFireSuccess, earlyFireSuccess, pyMinBy, pyMinByGo]
  · norm_num [specFastest, specFastestGo, lateFireSuccess, earlyFireSuccess]
  · norm_num [lateFireSuccess, earlyFireSuccess]

/-- C6 amended: when at least one record succeeded, the reported fastest
successful record is a successful record of minimum response latency, and
among the successful records attaining that minimum it is the first in the
collection's order — ties are broken by list position, not by the earliest
actual fire timestamp. -/
theorem fastest_first_minimal (attempts : List BookingAttempt)
    (h : attempts.filter (fun a => a.success) ≠ []) :
    ∃ f l1 l2,
      (logBurstSummary attempts).fastestSuccess = some f ∧
      attempts.filter (fun a => a.success) = l1 ++ f :: l2 ∧
      (∀ a ∈ l1, f.response_time_ms < a.response_time_ms) ∧
      (∀ a ∈ l2, f.response_time_ms ≤ a.response_time_ms) := by
  obtain ⟨f, l1, l2, hmin, hdec, h1, h2⟩ :=
    pyMinBy_first_minimal (fun a => a.response_time_ms) _ h
  exact ⟨f, l1, l2, by simpa [logBurstSummary] using hmin, hdec, h1, h2⟩

/-- Witness for C6 amended at the one-success collection `[fastAttempt]`. -/
theorem fastest_first_minimal_witness :
    ([fastAttempt].filter (fun a => a.success) ≠ []) ∧
    ∃ f l1 l2,
      (logBurstSummary [fastAttempt]).fastestSuccess = some f ∧
      [fastAttempt].filter (fun a => a.success) = l1 ++ f :: l2 ∧
      (∀ a ∈ l1, f.response_time_ms < a.response_time_ms) ∧
      (∀ a ∈ l2, f.response_time_ms ≤ a.response_time_ms) :=
  ⟨by simp [fastAttempt], fastest_first_minimal [fastAttempt] (by simp [fastAttempt])⟩

/-! ## Configuration handling -/

/-- C7 counterexample: a configuration whose `booking_window_time` is the
unparseable string "garbage" is NOT recovered to the default: the burst run
ends in a raised error (the `ValueError` from `int()` at lines 227-229
propagates through `execute_burst_strategy` and the re-raising handler of
line 418), instead of falling back to "23:00:00". -/
theorem window_time_crash_counterexample :
    calculateBookingTime 0 "garbage" = none ∧
    (calculateBookingTime 0 "23:00:00").isSome = true ∧
    runBurstBooking
        (ConfigSource.parsed { booking_window_time := some "garbage" } none none none)
        (.ok ()) 0 (fun _ => envTerminal) =
      .error ("ValueError: invalid booking_window_time garbage") :=
  ⟨by decide, by decide, rfl⟩

/-- C7 amended: a missing configuration file, an unparseable JSON file, or
any absent recognized key falls back to the documented default values and
never raises; but an unparseable `booking_window_time` value is not
recovered — with a parseable window time the burst completes, while the
counterexample shows the unparseable case raising upward. -/
theorem config_defaults_and_window_parse (src : ConfigSource) (dayStart : ℚ)
    (envs : Nat → JobEnv)
    (hw : (calculateBookingTime dayStart (loadConfig src).1.booking_window_time).isSome
      = true) :
    loadConfig .missingFile = ({}, defaultCredentials, defaultTargets, 2) ∧
    loadConfig .invalidJson = ({}, defaultCredentials, defaultTargets, 2) ∧
    loadConfig (.parsed {} none none none) = ({}, defaultCredentials, defaultTargets, 2) ∧
    ∃ attempts, runBurstBooking src (.ok ()) dayStart envs = .ok attempts := by
  refine ⟨rfl, rfl, rfl, ?_⟩
  cases hc : calculateBookingTime dayStart (loadConfig src).1.booking_window_time with
  | none => rw [hc] at hw; simp at hw
  | some base =>
    exact ⟨_, by rw [runBurstBooking, executeBurstStrategy, hc]⟩

/-- Witness for C7 amended: the missing-file fall-back parses its default
window time "23:00:00" and the burst completes. -/
theorem config_defaults_witness :
    ((calculateBookingTime 0 (loadConfig .missingFile).1.booking_window_time).isSome
      = true) ∧
    (loadConfig .missingFile = ({}, defaultCredentials, defaultTargets, 2) ∧
     loadConfig .invalidJson = ({}, defaultCredentials, defaultTargets, 2) ∧
     loadConfig (.parsed {} none none none) = ({}, defaultCredentials, defaultTargets, 2) ∧
     ∃ attempts,
       runBurstBooking .missingFile (.ok ()) 0 (fun _ => envTerminal) = .ok attempts) :=
  ⟨by decide,
   config_defaults_and_window_parse .missingFile 0 (fun _ => envTerminal) (by decide)⟩

/-! ## Concurrency bound -/

theorem runUnitsFrom_cap_invariant (cfg : BurstConfig) (n : Nat) (envs : Nat → JobEnv) :
    ∀ (k : Nat) (jobs : List ScheduledJob),
      runUnitsFrom { cfg with max_concurrent_requests := n } envs k jobs =
        runUnitsFrom cfg envs k jobs := by
  intro k jobs
  induction jobs generalizing k with
  | nil => rfl
  | cons a l ih =>
    rw [runUnitsFrom, runUnitsFrom, ih]
    exact rfl

/-- C8: the admission bound is not enforced. The burst execution is
literally independent of `max_concurrent_requests` — no code path reads it —
and in the concrete scenario of two jobs firing at the same instant with
10 ms latencies under a configured cap of 1, both units are inside their
network phase at the fire instant: 2 active, exceeding the cap. -/
theorem concurrency_cap_unenforced :
    (∀ (cfg : BurstConfig) (n : Nat) (targets : List String) (dayStart : ℚ)
        (envs : Nat → JobEnv),
      executeBurstStrategy { cfg with max_concurrent_requests := n } targets dayStart envs =
        executeBurstStrategy cfg targets dayStart envs) ∧
    activeNetworkCount ((scheduleJobs [0, 0] ["7:33"] 0).map fun j => (j, 10))
        (executionTime 0 0) = 2 ∧
    ({ burst_offsets := [0, 0], max_concurrent_requests := 1 :
        BurstConfig }).max_concurrent_requests = 1 ∧
    2 > 1 := by
  refine ⟨?_, ?_, rfl, by omega⟩
  · intro cfg n targets dayStart envs
    rw [executeBurstStrategy, executeBurstStrategy]
    have hw : ({ cfg with max_concurrent_requests := n } :
        BurstConfig).booking_window_time = cfg.booking_window_time := rfl
    rw [hw]
    cases hc : calculateBookingTime dayStart cfg.booking_window_time with
    | none => rfl
    | some base =>
      show Except.ok (runUnitsFrom { cfg with max_concurrent_requests := n } envs 0
          (scheduleJobs cfg.burst_offsets targets base)) =
        Except.ok (runUnitsFrom cfg envs 0 (scheduleJobs cfg.burst_offsets targets base))
      exact congrArg Except.ok (runUnitsFrom_cap_invariant cfg n envs 0 _)
  · have hbusy : networkBusyAt ⟨0, "7:33", executionTime 0 0⟩ 10 (executionTime 0 0) = true := by
      simp only [networkBusyAt, Bool.and_eq_true, decide_eq_true_eq]
      constructor
      · exact le_refl _
      · norm_num
    simp [activeNetworkCount, scheduleJobs, hbusy]

/-! ## Failure propagation and isolation -/

/-- C9 counterexample: with session initialization succeeding, the burst can
still end in a raised (burst-fatal) error — the unparseable
`booking_window_time` — so session-initialization failure is not the only
burst-fatal error; session failure itself does propagate. -/
theorem burst_fatal_not_only_session :
    runBurstBooking
        (ConfigSource.parsed { booking_window_time := some "garbage" } none none none)
        (.ok ()) 0 (fun _ => envRaising "boom") =
      .error ("ValueError: invalid booking_window_time garbage") ∧
    (∀ e, runBurstBooking ConfigSource.missingFile (.error e) 0
        (fun _ => envTerminal) = .error e) :=
  ⟨rfl, fun _ => rfl⟩

/-- C9 amended: session-initialization failure propagates as burst-fatal (as
does a window-time parse failure, per the counterexample); a unit whose
request raises is recorded as a failure on its own record — the record keeps
its defaults and carries the exception text — the burst still yields one
record per job, and perturbing the failing unit's environment leaves every
other unit's record unchanged: failures are isolated to their owning unit. -/
theorem failure_isolation (cfg : BurstConfig) (targets : List String) (base : ℚ)
    (envs envs2 : Nat → JobEnv) (i : Nat) (msg : String)
    (hraise : (envs i).firstOutcome = .raised msg)
    (hagree : ∀ j, j ≠ i → envs2 j = envs j) :
    (∀ (src : ConfigSource) (dayStart : ℚ) (e : String),
      runBurstBooking src (.error e) dayStart envs = .error e) ∧
    (runUnitsFrom cfg envs 0 (scheduleJobs cfg.burst_offsets targets base)).length =
      (scheduleJobs cfg.burst_offsets targets base).length ∧
    (runUnitsFrom cfg envs 0 (scheduleJobs cfg.burst_offsets targets base))[i]? =
      ((scheduleJobs cfg.burst_offsets targets base)[i]?).map
        (fun job =>
          { initialAttempt job.offset_ms (envs i).attemptStart with
              error_message := some msg }) ∧
    (∀ j, j ≠ i →
      (runUnitsFrom cfg envs2 0 (scheduleJobs cfg.burst_offsets targets base))[j]? =
        (runUnitsFrom cfg envs 0 (scheduleJobs cfg.burst_offsets targets base))[j]?) := by
  refine ⟨fun _ _ _ => rfl, runUnitsFrom_length cfg envs 0 _, ?_, ?_⟩
  · rw [runUnitsFrom_getElem]
    cases hjob : (scheduleJobs cfg.burst_offsets targets base)[i]? with
    | none => rfl
    | some job =>
      simp only [Option.map_some, Option.some.injEq, Nat.zero_add]
      simp [runUnit, hraise, makeBookingRequest, initialAttempt]
  · intro j hj
    rw [runUnitsFrom_getElem, runUnitsFrom_getElem]
    simp [Nat.zero_add, hagree j hj]

/-- Witness for C9 at a one-target default configuration whose every unit's
first request raises "boom". -/
theorem failure_isolation_witness :
    (((fun _ : Nat => envRaising "boom") 0).firstOutcome = .raised "boom") ∧
    ((∀ (src : ConfigSource) (dayStart : ℚ) (e : String),
      runBurstBooking src (.error e) dayStart (fun _ => envRaising "boom") = .error e) ∧
    (runUnitsFrom {} (fun _ => envRaising "boom") 0
        (scheduleJobs ({} : BurstConfig).burst_offsets ["7:33"] 0)).length =
      (scheduleJobs ({} : BurstConfig).burst_offsets ["7:33"] 0).length ∧
    (runUnitsFrom {} (fun _ => envRaising "boom") 0
        (scheduleJobs ({} : BurstConfig).burst_offsets ["7:33"] 0))[0]? =
      ((scheduleJobs ({} : BurstConfig).burst_offsets ["7:33"] 0)[0]?).map
        (fun job =>
          { initialAttempt job.offset_ms ((fun _ : Nat => envRaising "boom") 0).attemptStart with
              error_message := some "boom" }) ∧
    (∀ j, j ≠ 0 →
      (runUnitsFrom {} (fun _ => envRaising "boom") 0
          (scheduleJobs ({} : BurstConfig).burst_offsets ["7:33"] 0))[j]? =
        (runUnitsFrom {} (fun _ => envRaising "boom") 0
          (scheduleJobs ({} : BurstConfig).burst_offsets ["7:33"] 0))[j]?)) :=
  ⟨rfl, failure_isolation {} ["7:33"] 0 (fun _ => envRaising "boom")
    (fun _ => envRaising "boom") 0 "boom" rfl (fun _ _ => rfl)⟩

end TeeTime
